import Mathlib

/-!
# nna_util.c : the conditional debug logger

A shallow embedding of `nna_log` and `nna_vlog` from `src/nna_util.c`, together
with the two C library calls they make (`vsnprintf`, `fprintf`), followed by the
properties of the logger.

Conventions of the embedding

* A `char` is a `Char`; a `char*` argument is the list of characters stored at
  the address, and C reads it up to (excluding) the first NUL (`cstr`).
* `FILE*` values are compared by identity only, so a stream is a tag: the two
  standard streams and any number of other ones.
* The state is the sequence of writes performed so far (`World`); a successful
  `fprintf` appends one record to it.
* `#if DEBUG_TRUE` is a compile-time switch set outside `nna_util.c` (header or
  compiler flag): it is a parameter of both functions.
* The C library is not part of the repository.  Its formatting is computed by
  `vformat` on the fragment `vformat` interprets (plain text, `%%`, and the
  conversions `d`, `i`, `u`, `c`, `s` without flags, width, precision or length
  modifier, each with an argument of the matching kind).  Everywhere else
  (flags, widths, precisions, length modifiers, every other conversion, encoding
  errors) the complete message is whatever the library yields: a parameter
  `lib` of the logger.  Every theorem holds for every `lib`.
* `level` is declared without an initialiser.  The value an unassigned `level`
  denotes when it is read is a parameter (`uninit`), so every theorem holds for
  whatever string the indeterminate pointer happens to reference.  (C leaves
  that read undefined; executions in which it traps are outside the model.)
* An `unsigned int` consumed by the conversion `d` is read as the two's
  complement `int` with the same 32 bits, as on every mainstream ABI.
-/

namespace NnaUtil

/-! ## Data model -/

/-- The `#define BUFFER_SIZE 4096` of the source. -/
def BUFFER_SIZE : Nat := 4096

/-- Largest value of a C `int` (32 bits). -/
def INT_MAX : Int := 2147483647

/-- The terminating character of a C string. -/
def NUL : Char := Char.ofNat 0

/-- A `FILE*` handle, known only by its identity. -/
inductive Stream where
  | stderr : Stream
  | stdout : Stream
  | other (id : Nat) : Stream
  deriving DecidableEq, Repr

/-- One variadic argument, after the default argument promotions: an `int`, an
`unsigned int`, a wider signed or unsigned integer, a floating-point value
(its bit pattern), a `char*` (the characters stored there) or another
pointer. -/
inductive Arg where
  | int (v : Int) : Arg
  | uint (v : Nat) : Arg
  | long (v : Int) : Arg
  | ulong (v : Nat) : Arg
  | double (bits : Nat) : Arg
  | str (s : List Char) : Arg
  | ptr (addr : Nat) : Arg
  deriving DecidableEq, Repr

/-- The writes performed so far, oldest first: the stream and the text. -/
abbrev World := List (Stream × List Char)

/-- Everything written to stream `s` so far. -/
def content (w : World) (s : Stream) : List Char :=
  ((w.filter (fun e => decide (e.1 = s))).map (fun e => e.2)).flatten

/-! ## The C library, as far as the logger uses it -/

/-- The formatting of the C library outside the interpreted fragment: the
complete message for a format and its arguments, `none` for an encoding
error. -/
abbrev Library := List Char → List Arg → Option (List Char)

/-- The string a `char*` denotes: the characters before the first NUL. -/
def cstr (s : List Char) : List Char :=
  s.takeWhile (fun c => decide (c ≠ NUL))

/-- The value of a 32-bit pattern read as a two's complement `int`. -/
def toInt32 (v : Nat) : Int :=
  if v % 2 ^ 32 < 2 ^ 31 then ((v % 2 ^ 32 : Nat) : Int)
  else ((v % 2 ^ 32 : Nat) : Int) - 2 ^ 32

/-- The 32-bit pattern of an `int` or `unsigned int` argument. -/
def bits32 : Arg → Option Nat
  | Arg.int v => some (v % 2 ^ 32).toNat
  | Arg.uint v => some (v % 2 ^ 32)
  | _ => none

/-- Decimal numeral of an integer, with a leading minus sign when negative. -/
def decimal (v : Int) : List Char :=
  if v < 0 then '-' :: Nat.toDigits 10 v.natAbs else Nat.toDigits 10 v.toNat

/-- The text of one conversion of the interpreted fragment: `d`, `i` (signed
decimal), `u` (unsigned decimal), `c` (one character), `s` (a string), applied
to an argument of the matching kind.  The result is `none` when the conversion
or the argument lies outside the fragment; the text is then the library's. -/
def conversion (c : Char) (a : Arg) : Option (List Char) :=
  if c = 'd' ∨ c = 'i' then (bits32 a).map (fun b => decimal (toInt32 b))
  else if c = 'u' then (bits32 a).map (fun b => Nat.toDigits 10 b)
  else if c = 'c' then (bits32 a).map (fun b => [Char.ofNat (b % 256)])
  else if c = 's' then
    match a with
    | Arg.str s => some (cstr s)
    | _ => none
  else none

/-- The interpreted fragment of the library's formatting: the complete text of
a format made of plain characters, `%%` and the conversions of `conversion`;
`none` when the format leaves the fragment.  Surplus arguments are ignored, as
in C. -/
def vformat : List Char → List Arg → Option (List Char)
  | [], _ => some []
  | [c], _ => if c = '%' then none else some [c]
  | c :: d :: rest, args =>
    if c = '%' then
      if d = '%' then (vformat rest args).map (fun t => '%' :: t)
      else
        match args with
        | [] => none
        | a :: args' =>
          match conversion d a with
          | none => none
          | some s => (vformat rest args').map (fun t => s ++ t)
    else (vformat (d :: rest) args).map (fun t => c :: t)

/-- The formatted message of a call, the format being read as a C string: the
text `vformat` computes inside the fragment, the library's answer outside it;
`none` is an encoding error. -/
def formatted (lib : Library) (format : List Char) (argp : List Arg) :
    Option (List Char) :=
  match vformat (cstr format) argp with
  | some out => some out
  | none => lib (cstr format) argp

/-- Model of `vsnprintf(buffer, size, format, argp)`: the result code and the
characters stored in the buffer before its terminating NUL.  The result code is
the length of the complete message, whether or not it fits, and is negative
on an encoding error or when the length exceeds `INT_MAX`; at most `size - 1`
characters are stored. -/
def vsnprintf (lib : Library) (size : Nat) (format : List Char) (argp : List Arg) :
    Int × List Char :=
  match formatted lib format argp with
  | none => (-1, [])
  | some out =>
    if (out.length : Int) > INT_MAX then (-1, out.take (size - 1))
    else ((out.length : Int), out.take (size - 1))

/-- Model of `fprintf(stream, format, ...)`: the formatted text is appended to
the writes of `stream`; nothing is written on an encoding error. -/
def fprintf (lib : Library) (w : World) (stream : Stream) (format : List Char)
    (args : List Arg) : World :=
  match formatted lib format args with
  | none => w
  | some out => w ++ [(stream, out)]

/-! ## The logger -/

/-- The format string of the emitted line. -/
def LINE_FORMAT : List Char := "[%s:%d] [%s] %s\n".toList

/-- Lines 47-54 of `nna_vlog`: the value of `level` after the two comparisons;
`none` when neither branch assigned it. -/
def nna_vlog_level (stream : Stream) : Option (List Char) :=
  if Stream.stderr = stream then some "ERROR".toList
  else if Stream.stdout = stream then some "INFO".toList
  else none

/-- The function `nna_vlog` of the source.  `lib` is the C library,
`DEBUG_TRUE` the compile-time switch, `uninit` the string an unassigned `level`
denotes, `w` the state before the call; the result is the state after it. -/
def nna_vlog (lib : Library) (DEBUG_TRUE : Bool) (uninit : List Char) (w : World)
    (stream : Stream) (file_name : List Char) (line : Nat) (format : List Char)
    (argp : List Arg) : World :=
  if DEBUG_TRUE then
    let level : List Char := (nna_vlog_level stream).getD uninit
    let r := vsnprintf lib BUFFER_SIZE format argp
    let stop : Int := r.1
    let buffer : List Char := r.2
    if stop < (BUFFER_SIZE : Int) ∧ stop > 0 then
      fprintf lib w stream LINE_FORMAT
        [Arg.str file_name, Arg.uint (line % 2 ^ 32), Arg.str level, Arg.str buffer]
    else w
  else w

/-- The function `nna_log` of the source: the trailing arguments are captured
(`va_start`) and handed to `nna_vlog`. -/
def nna_log (lib : Library) (DEBUG_TRUE : Bool) (uninit : List Char) (w : World)
    (stream : Stream) (file_name : List Char) (line : Nat) (format : List Char)
    (args : List Arg) : World :=
  if DEBUG_TRUE then
    let argp : List Arg := args
    nna_vlog lib DEBUG_TRUE uninit w stream file_name line format argp
  else w

/-- The wire format of the specification, `[<file>:<line>] [<LEVEL>] <message>`
followed by a newline, assembled from its four fields. -/
def wireLine (file lineField label message : List Char) : List Char :=
  "[".toList ++ file ++ ":".toList ++ lineField ++ "] [".toList ++ label
    ++ "] ".toList ++ message ++ "\n".toList

/-- A sample of what a C library yields outside the interpreted fragment, used
to instantiate the theorems there: hexadecimal 255, 7 in a field of width 5,
7 in a field of width 4096, and the encoding error of the conversion `ls` on a
wide string (stored at address 4096) one of whose characters has no multibyte
form in the current locale. -/
def sampleLib : Library := fun format args =>
  if format = "%x".toList ∧ args = [Arg.int 255] then some "ff".toList
  else if format = "%5d".toList ∧ args = [Arg.int 7] then some "    7".toList
  else if format = "%4096d".toList ∧ args = [Arg.int 7] then
    some (List.replicate 4095 ' ' ++ ['7'])
  else if format = "%ls".toList ∧ args = [Arg.ptr 4096] then none
  else none

/-! ## Auxiliary facts -/

theorem cstr_LINE_FORMAT : cstr LINE_FORMAT = LINE_FORMAT := by decide

/-- Inside the fragment the library parameter plays no part. -/
theorem formatted_of_vformat (lib : Library) (format : List Char) (argp : List Arg)
    (out : List Char) (h : vformat (cstr format) argp = some out) :
    formatted lib format argp = some out := by
  simp only [formatted, h]

theorem formatted_LINE_FORMAT (lib : Library) (f : List Char) (l : Nat)
    (lv b : List Char) :
    formatted lib LINE_FORMAT [Arg.str f, Arg.uint l, Arg.str lv, Arg.str b]
      = some (wireLine (cstr f) (decimal (toInt32 l)) (cstr lv) (cstr b)) := by
  apply formatted_of_vformat
  rw [cstr_LINE_FORMAT]
  simp [LINE_FORMAT, vformat, conversion, bits32, wireLine, toInt32]

theorem fprintf_LINE_FORMAT (lib : Library) (w : World) (s : Stream) (f : List Char)
    (l : Nat) (lv b : List Char) :
    fprintf lib w s LINE_FORMAT [Arg.str f, Arg.uint l, Arg.str lv, Arg.str b]
      = w ++ [(s, wireLine (cstr f) (decimal (toInt32 l)) (cstr lv) (cstr b))] := by
  unfold fprintf
  rw [formatted_LINE_FORMAT]

/-- With the switch on and a result code strictly between 0 and the buffer
size, the call appends exactly one line, built from the buffer. -/
theorem nna_vlog_emits (lib : Library) (uninit : List Char) (w : World) (stream : Stream)
    (file_name : List Char) (line : Nat) (format : List Char) (argp : List Arg)
    (h0 : 0 < (vsnprintf lib BUFFER_SIZE format argp).1)
    (h1 : (vsnprintf lib BUFFER_SIZE format argp).1 < 4096) :
    nna_vlog lib true uninit w stream file_name line format argp
      = w ++ [(stream, wireLine (cstr file_name) (decimal (toInt32 (line % 2 ^ 32)))
                (cstr ((nna_vlog_level stream).getD uninit))
                (cstr (vsnprintf lib BUFFER_SIZE format argp).2))] := by
  have hg : (vsnprintf lib BUFFER_SIZE format argp).1 < (BUFFER_SIZE : Int)
      ∧ (vsnprintf lib BUFFER_SIZE format argp).1 > 0 := by
    refine ⟨?_, h0⟩
    simpa [BUFFER_SIZE] using h1
  simp only [nna_vlog, if_true, if_pos hg]
  exact fprintf_LINE_FORMAT _ _ _ _ _ _ _

/-- Whatever the switch, a result code outside the open interval leaves the
state untouched. -/
theorem nna_vlog_drops (lib : Library) (d : Bool) (uninit : List Char) (w : World)
    (stream : Stream) (file_name : List Char) (line : Nat) (format : List Char)
    (argp : List Arg)
    (h : ¬ (0 < (vsnprintf lib BUFFER_SIZE format argp).1
          ∧ (vsnprintf lib BUFFER_SIZE format argp).1 < 4096)) :
    nna_vlog lib d uninit w stream file_name line format argp = w := by
  have hg : ¬ ((vsnprintf lib BUFFER_SIZE format argp).1 < (BUFFER_SIZE : Int)
      ∧ (vsnprintf lib BUFFER_SIZE format argp).1 > 0) := by
    intro hc
    apply h
    refine ⟨hc.2, ?_⟩
    simpa [BUFFER_SIZE] using hc.1
  cases d
  · simp [nna_vlog]
  · simp only [nna_vlog, if_true, if_neg hg]

theorem nna_log_eq_nna_vlog (lib : Library) (d : Bool) (uninit : List Char) (w : World)
    (stream : Stream) (file_name : List Char) (line : Nat) (format : List Char)
    (args : List Arg) :
    nna_log lib d uninit w stream file_name line format args
      = nna_vlog lib d uninit w stream file_name line format args := by
  cases d
  · simp [nna_log, nna_vlog]
  · simp [nna_log]

/-- A message shorter than the buffer is stored whole and its length is the
result code. -/
theorem vsnprintf_fits (lib : Library) (format : List Char) (argp : List Arg)
    (msg : List Char)
    (hf : formatted lib format argp = some msg) (hl : msg.length < 4096) :
    vsnprintf lib BUFFER_SIZE format argp = ((msg.length : Int), msg) := by
  have hi : ¬ ((msg.length : Int) > INT_MAX) := by
    simp only [INT_MAX]; omega
  have ht : msg.take (BUFFER_SIZE - 1) = msg := by
    apply List.take_of_length_le
    simp only [BUFFER_SIZE]; omega
  simp only [vsnprintf, hf, if_neg hi, ht]

/-- A message that does not fit gives a result code that is negative or at
least the buffer size. -/
theorem vsnprintf_long_code (lib : Library) (format : List Char) (argp : List Arg)
    (msg : List Char)
    (hf : formatted lib format argp = some msg) (hl : 4096 ≤ msg.length) :
    (vsnprintf lib BUFFER_SIZE format argp).1 < 0
      ∨ 4096 ≤ (vsnprintf lib BUFFER_SIZE format argp).1 := by
  simp only [vsnprintf, hf]
  by_cases hi : (msg.length : Int) > INT_MAX
  · simp only [if_pos hi]; omega
  · simp only [if_neg hi]; omega

/-- A message that does not fit gives a result code outside the open interval. -/
theorem vsnprintf_long (lib : Library) (format : List Char) (argp : List Arg)
    (msg : List Char)
    (hf : formatted lib format argp = some msg) (hl : 4096 ≤ msg.length) :
    ¬ (0 < (vsnprintf lib BUFFER_SIZE format argp).1
        ∧ (vsnprintf lib BUFFER_SIZE format argp).1 < 4096) := by
  have h := vsnprintf_long_code lib format argp msg hf hl
  omega

theorem toInt32_small (l : Nat) (h : l < 2 ^ 31) : toInt32 (l % 2 ^ 32) = (l : Int) := by
  have h2 : l % 2 ^ 32 = l := Nat.mod_eq_of_lt (by omega)
  simp only [toInt32, Nat.mod_mod, h2, if_pos h]

theorem toInt32_large (l : Nat) (h : 2 ^ 31 ≤ l) (h2 : l < 2 ^ 32) :
    toInt32 (l % 2 ^ 32) = (l : Int) - 2 ^ 32 := by
  have h3 : l % 2 ^ 32 = l := Nat.mod_eq_of_lt h2
  have h4 : ¬ (l < 2 ^ 31) := by omega
  simp only [toInt32, Nat.mod_mod, h3, if_neg h4]

theorem decimal_ofNat (l : Nat) : decimal (l : Int) = Nat.toDigits 10 l := by
  have h : ¬ ((l : Int) < 0) := by omega
  simp only [decimal, if_neg h, Int.toNat_ofNat]

theorem decimal_wrapped (l : Nat) (h : l < 2 ^ 32) :
    decimal ((l : Int) - 2 ^ 32) = '-' :: Nat.toDigits 10 (2 ^ 32 - l) := by
  have hn : ((l : Int) - 2 ^ 32) < 0 := by omega
  have ha : ((l : Int) - 2 ^ 32).natAbs = 2 ^ 32 - l := by omega
  simp only [decimal, if_pos hn, ha]

/-- A string without NUL is read whole. -/
theorem cstr_of_not_mem (s : List Char) (h : NUL ∉ s) : cstr s = s := by
  unfold cstr
  rw [List.takeWhile_eq_self_iff]
  intro c hc
  simp only [ne_eq, decide_eq_true_eq]
  intro hcn
  exact h (hcn ▸ hc)

theorem content_append_other (w : World) (s t : Stream) (text : List Char) (h : t ≠ s) :
    content (w ++ [(s, text)]) t = content w t := by
  simp [content, List.filter_append, List.filter_cons, Ne.symm h]

/-! ## The claims -/

/-- C1, as stated, fails at three concrete calls with the switch on and a
formatted message shorter than 4096.  (1) The empty message (length 0): nothing
is written.  (2) Line 2147483648: the line field reads -2147483648.  (3) A
message holding a NUL (from the conversion c applied to 0): only the part before
the NUL is written. -/
theorem C1_counterexample :
    (formatted sampleLib "".toList [] = some []
      ∧ nna_vlog sampleLib true [] [] Stream.stderr "main.c".toList 42 "".toList [] = []
      ∧ nna_vlog sampleLib true [] [] Stream.stderr "main.c".toList 42 "".toList []
          ≠ [(Stream.stderr, wireLine "main.c".toList (Nat.toDigits 10 42) "ERROR".toList [])])
    ∧ (formatted sampleLib "x".toList [] = some "x".toList
      ∧ nna_vlog sampleLib true [] [] Stream.stderr "main.c".toList 2147483648 "x".toList []
          = [(Stream.stderr, "[main.c:-2147483648] [ERROR] x\n".toList)]
      ∧ nna_vlog sampleLib true [] [] Stream.stderr "main.c".toList 2147483648 "x".toList []
          ≠ [(Stream.stderr,
              wireLine "main.c".toList (Nat.toDigits 10 2147483648) "ERROR".toList "x".toList)])
    ∧ (formatted sampleLib "a%cb".toList [Arg.int 0] = some ['a', NUL, 'b']
      ∧ nna_vlog sampleLib true [] [] Stream.stderr "main.c".toList 42 "a%cb".toList
            [Arg.int 0]
          = [(Stream.stderr, "[main.c:42] [ERROR] a\n".toList)]
      ∧ nna_vlog sampleLib true [] [] Stream.stderr "main.c".toList 42 "a%cb".toList
            [Arg.int 0]
          ≠ [(Stream.stderr,
              wireLine "main.c".toList (Nat.toDigits 10 42) "ERROR".toList ['a', NUL, 'b'])]) := by
  decide

/-- C1, amended: with the switch on, for every C library, for the error or the
output stream, a line number below 2^31 and every format/arguments pair whose
formatted message has length at least 1 and below 4096, both `nna_vlog` and
`nna_log` append to that stream exactly the wire-format line whose fields are
the file name, the decimal numeral of the line, the label of the stream (ERROR
for the error stream, INFO for the output stream) and the message up to its
first NUL (the whole message when it holds none). -/
theorem C1_line_written (lib : Library) (uninit : List Char) (w : World) (stream : Stream)
    (file_name : List Char) (line : Nat) (format : List Char) (argp : List Arg)
    (msg : List Char)
    (hs : stream = Stream.stderr ∨ stream = Stream.stdout)
    (hline : line < 2 ^ 31)
    (hf : formatted lib format argp = some msg)
    (h0 : 0 < msg.length) (h1 : msg.length < 4096) :
    nna_vlog lib true uninit w stream file_name line format argp
        = w ++ [(stream, wireLine (cstr file_name) (Nat.toDigits 10 line)
                  (if stream = Stream.stderr then "ERROR".toList else "INFO".toList)
                  (cstr msg))]
    ∧ nna_log lib true uninit w stream file_name line format argp
        = w ++ [(stream, wireLine (cstr file_name) (Nat.toDigits 10 line)
                  (if stream = Stream.stderr then "ERROR".toList else "INFO".toList)
                  (cstr msg))] := by
  have hv := vsnprintf_fits lib format argp msg hf h1
  have hr0 : 0 < (vsnprintf lib BUFFER_SIZE format argp).1 := by rw [hv]; simpa using h0
  have hr1 : (vsnprintf lib BUFFER_SIZE format argp).1 < 4096 := by
    rw [hv]; simp only; omega
  have hlabel : cstr ((nna_vlog_level stream).getD uninit)
      = (if stream = Stream.stderr then "ERROR".toList else "INFO".toList) := by
    rcases hs with hs | hs <;> subst hs <;> rfl
  have key := nna_vlog_emits lib uninit w stream file_name line format argp hr0 hr1
  rw [toInt32_small line hline, decimal_ofNat, hlabel, hv] at key
  exact ⟨key, (nna_log_eq_nna_vlog _ _ _ _ _ _ _ _ _).trans key⟩

/-- Instance of C1 (amended) at the call vlog(stdout, "main.c", 42, "%5d", 7),
whose format carries a field width. -/
theorem C1_line_written_witness :
    (Stream.stdout = Stream.stderr ∨ Stream.stdout = Stream.stdout)
    ∧ 42 < 2 ^ 31
    ∧ formatted sampleLib "%5d".toList [Arg.int 7] = some "    7".toList
    ∧ 0 < "    7".toList.length ∧ "    7".toList.length < 4096
    ∧ (nna_vlog sampleLib true [] [] Stream.stdout "main.c".toList 42 "%5d".toList [Arg.int 7]
        = [] ++ [(Stream.stdout, wireLine (cstr "main.c".toList) (Nat.toDigits 10 42)
                  (if Stream.stdout = Stream.stderr then "ERROR".toList else "INFO".toList)
                  (cstr "    7".toList))]
      ∧ nna_log sampleLib true [] [] Stream.stdout "main.c".toList 42 "%5d".toList [Arg.int 7]
        = [] ++ [(Stream.stdout, wireLine (cstr "main.c".toList) (Nat.toDigits 10 42)
                  (if Stream.stdout = Stream.stderr then "ERROR".toList else "INFO".toList)
                  (cstr "    7".toList))])
    ∧ nna_vlog sampleLib true [] [] Stream.stdout "main.c".toList 42 "%5d".toList [Arg.int 7]
        = [(Stream.stdout, "[main.c:42] [INFO]     7\n".toList)] :=
  ⟨by decide, by decide, by decide, by decide, by decide,
   C1_line_written sampleLib [] [] Stream.stdout "main.c".toList 42 "%5d".toList [Arg.int 7]
     "    7".toList (Or.inr rfl) (by decide) (by decide) (by decide) (by decide),
   by decide⟩

/-- C2: with the switch on, for every C library, `nna_vlog` changes the state
if and only if the result code r of the formatting satisfies 0 < r < 4096; in
that case it appends exactly one newline-terminated line to the given stream,
and when r is negative or at least 4096 the state after the call is the state
before it.  The function has no result other than the state, so nothing is
reported to the caller. -/
theorem C2_written_iff_code_in_range (lib : Library) (uninit : List Char) (w : World)
    (stream : Stream) (file_name : List Char) (line : Nat) (format : List Char)
    (argp : List Arg) :
    (nna_vlog lib true uninit w stream file_name line format argp ≠ w
        ↔ 0 < (vsnprintf lib BUFFER_SIZE format argp).1
            ∧ (vsnprintf lib BUFFER_SIZE format argp).1 < 4096)
    ∧ (0 < (vsnprintf lib BUFFER_SIZE format argp).1
          ∧ (vsnprintf lib BUFFER_SIZE format argp).1 < 4096 →
        nna_vlog lib true uninit w stream file_name line format argp
          = w ++ [(stream, wireLine (cstr file_name) (decimal (toInt32 (line % 2 ^ 32)))
                    (cstr ((nna_vlog_level stream).getD uninit))
                    (cstr (vsnprintf lib BUFFER_SIZE format argp).2))])
    ∧ ((vsnprintf lib BUFFER_SIZE format argp).1 < 0
          ∨ 4096 ≤ (vsnprintf lib BUFFER_SIZE format argp).1 →
        nna_vlog lib true uninit w stream file_name line format argp = w) := by
  refine ⟨⟨?_, ?_⟩, ?_, ?_⟩
  · intro hne
    by_contra hc
    exact hne (nna_vlog_drops lib true uninit w stream file_name line format argp hc)
  · intro hr
    rw [nna_vlog_emits lib uninit w stream file_name line format argp hr.1 hr.2]
    intro heq
    have hlen := congrArg List.length heq
    simp at hlen
  · intro hr
    exact nna_vlog_emits lib uninit w stream file_name line format argp hr.1 hr.2
  · intro hr
    apply nna_vlog_drops
    omega

/-- Instance of C2 at a call that is written (hexadecimal 255, result code 2),
a call whose message is truncated (7 in a field of width 4096, result code
4096) and a call whose formatting reports an encoding error. -/
theorem C2_written_iff_code_in_range_witness :
    (0 < (vsnprintf sampleLib BUFFER_SIZE "%x".toList [Arg.int 255]).1
        ∧ (vsnprintf sampleLib BUFFER_SIZE "%x".toList [Arg.int 255]).1 < 4096)
    ∧ nna_vlog sampleLib true [] [] Stream.stderr "main.c".toList 42 "%x".toList [Arg.int 255]
        = [] ++ [(Stream.stderr, wireLine (cstr "main.c".toList) (decimal (toInt32 (42 % 2 ^ 32)))
                  (cstr ((nna_vlog_level Stream.stderr).getD []))
                  (cstr (vsnprintf sampleLib BUFFER_SIZE "%x".toList [Arg.int 255]).2))]
    ∧ nna_vlog sampleLib true [] [] Stream.stderr "main.c".toList 42 "%x".toList [Arg.int 255]
        = [(Stream.stderr, "[main.c:42] [ERROR] ff\n".toList)]
    ∧ ((vsnprintf sampleLib BUFFER_SIZE "%4096d".toList [Arg.int 7]).1 < 0
        ∨ 4096 ≤ (vsnprintf sampleLib BUFFER_SIZE "%4096d".toList [Arg.int 7]).1)
    ∧ nna_vlog sampleLib true [] [] Stream.stderr "main.c".toList 42 "%4096d".toList
        [Arg.int 7] = []
    ∧ (vsnprintf sampleLib BUFFER_SIZE "%ls".toList [Arg.ptr 4096]).1 < 0
    ∧ nna_vlog sampleLib true [] [] Stream.stderr "main.c".toList 42 "%ls".toList
        [Arg.ptr 4096] = [] :=
  ⟨by decide,
   (C2_written_iff_code_in_range sampleLib [] [] Stream.stderr "main.c".toList 42
      "%x".toList [Arg.int 255]).2.1 (by decide),
   by decide,
   vsnprintf_long_code sampleLib "%4096d".toList [Arg.int 7]
     (List.replicate 4095 ' ' ++ ['7']) rfl
     (by rw [List.length_append, List.length_replicate]; decide),
   (C2_written_iff_code_in_range sampleLib [] [] Stream.stderr "main.c".toList 42
      "%4096d".toList [Arg.int 7]).2.2
     (vsnprintf_long_code sampleLib "%4096d".toList [Arg.int 7]
       (List.replicate 4095 ' ' ++ ['7']) rfl
       (by rw [List.length_append, List.length_replicate]; decide)),
   by decide,
   (C2_written_iff_code_in_range sampleLib [] [] Stream.stderr "main.c".toList 42
      "%ls".toList [Arg.ptr 4096]).2.2 (Or.inl (by decide))⟩

/-- C3: with the switch off, `nna_log` and `nna_vlog` are no-ops: for every
stream, file name, line, format and arguments the state after the call is the
state before it, so no stream receives any output. -/
theorem C3_disabled_is_noop (lib : Library) (uninit : List Char) (w : World)
    (stream : Stream) (file_name : List Char) (line : Nat) (format : List Char)
    (args : List Arg) :
    nna_log lib false uninit w stream file_name line format args = w
    ∧ nna_vlog lib false uninit w stream file_name line format args = w
    ∧ (∀ t : Stream,
        content (nna_log lib false uninit w stream file_name line format args) t
            = content w t
        ∧ content (nna_vlog lib false uninit w stream file_name line format args) t
            = content w t) := by
  have h1 : nna_log lib false uninit w stream file_name line format args = w := by
    simp [nna_log]
  have h2 : nna_vlog lib false uninit w stream file_name line format args = w := by
    simp [nna_vlog]
  refine ⟨h1, h2, ?_⟩
  intro t
  rw [h1, h2]
  exact ⟨rfl, rfl⟩

/-- C4: for every C library and every format/arguments pair whose formatted
message has length at least 4096, `nna_log` and `nna_vlog` leave the state as
it was, with the switch on as well as off. -/
theorem C4_long_message_dropped (lib : Library) (d : Bool) (uninit : List Char)
    (w : World) (stream : Stream) (file_name : List Char) (line : Nat)
    (format : List Char) (args : List Arg) (msg : List Char)
    (hf : formatted lib format args = some msg) (hl : 4096 ≤ msg.length) :
    nna_log lib d uninit w stream file_name line format args = w
    ∧ nna_vlog lib d uninit w stream file_name line format args = w := by
  have h := nna_vlog_drops lib d uninit w stream file_name line format args
    (vsnprintf_long lib format args msg hf hl)
  exact ⟨(nna_log_eq_nna_vlog _ _ _ _ _ _ _ _ _).trans h, h⟩

/-- Instance of C4 at a message made long by a field width: 7 in a field of
width 4096. -/
theorem C4_long_message_dropped_witness :
    formatted sampleLib "%4096d".toList [Arg.int 7]
        = some (List.replicate 4095 ' ' ++ ['7'])
    ∧ 4096 ≤ (List.replicate 4095 ' ' ++ ['7']).length
    ∧ nna_log sampleLib true [] [] Stream.stderr "main.c".toList 42 "%4096d".toList
        [Arg.int 7] = []
    ∧ nna_vlog sampleLib true [] [] Stream.stderr "main.c".toList 42 "%4096d".toList
        [Arg.int 7] = [] :=
  ⟨rfl, by rw [List.length_append, List.length_replicate]; decide,
   C4_long_message_dropped sampleLib true [] [] Stream.stderr "main.c".toList 42
     "%4096d".toList [Arg.int 7] (List.replicate 4095 ' ' ++ ['7']) rfl
     (by rw [List.length_append, List.length_replicate]; decide)⟩

/-- C5 fails on the code: for a stream that is neither the error nor the output
stream no branch assigns the label, and the line `nna_vlog` writes carries
whatever the unassigned label denotes.  When that is the text ERROR (for
instance the literal left by an earlier call on the error stream), the label
is ERROR although the stream is not the error stream. -/
theorem C5_label_on_third_stream :
    Stream.other 3 ≠ Stream.stderr
    ∧ nna_vlog_level (Stream.other 3) = none
    ∧ nna_vlog sampleLib true "ERROR".toList [] (Stream.other 3) "main.c".toList 42
          "x".toList []
        = [(Stream.other 3, "[main.c:42] [ERROR] x\n".toList)]
    ∧ nna_vlog sampleLib true "ERROR".toList [] Stream.stderr "main.c".toList 42
          "x".toList []
        = [(Stream.stderr, "[main.c:42] [ERROR] x\n".toList)] := by
  decide

/-- C6: for every C library, switch value, state, stream, file name, line,
format and argument list, `nna_log` yields exactly the state `nna_vlog` yields
on the same stream, file name, line and format with the captured arguments. -/
theorem C6_log_delegates_to_vlog (lib : Library) (d : Bool) (uninit : List Char)
    (w : World) (stream : Stream) (file_name : List Char) (line : Nat)
    (format : List Char) (args : List Arg) :
    nna_log lib d uninit w stream file_name line format args
      = nna_vlog lib d uninit w stream file_name line format args := by
  cases d
  · simp [nna_log, nna_vlog]
  · simp [nna_log]

/-- C7: with the switch on, the call log(stderr, "main.c", 42, "value=%d", 7)
appends exactly the line "[main.c:42] [ERROR] value=7" and a newline to the
error stream; with the switch off the same call leaves the state as it was. -/
theorem C7_example_call (lib : Library) (uninit : List Char) (w : World) :
    nna_log lib true uninit w Stream.stderr "main.c".toList 42 "value=%d".toList
        [Arg.int 7]
      = w ++ [(Stream.stderr, "[main.c:42] [ERROR] value=7\n".toList)]
    ∧ nna_log lib false uninit w Stream.stderr "main.c".toList 42 "value=%d".toList
        [Arg.int 7]
      = w := by
  constructor
  · have hf : formatted lib "value=%d".toList [Arg.int 7] = some "value=7".toList :=
      formatted_of_vformat lib _ _ _ (by decide)
    have hv := vsnprintf_fits lib "value=%d".toList [Arg.int 7] "value=7".toList hf
      (by decide)
    have h0 : 0 < (vsnprintf lib BUFFER_SIZE "value=%d".toList [Arg.int 7]).1 := by
      rw [hv]; decide
    have h1 : (vsnprintf lib BUFFER_SIZE "value=%d".toList [Arg.int 7]).1 < 4096 := by
      rw [hv]; decide
    rw [nna_log_eq_nna_vlog,
      nna_vlog_emits lib uninit w Stream.stderr "main.c".toList 42 "value=%d".toList
        [Arg.int 7] h0 h1, hv]
    rfl
  · simp [nna_log]

/-- C8: with the switch on and a stream that is neither the error nor the
output stream, neither branch assigns the label, and whenever the formatting
succeeds (result code r with 0 < r < 4096) the line is still appended to that
stream, its label field being whatever the unassigned label denotes. -/
theorem C8_unrecognised_stream (lib : Library) (k : Nat) (uninit : List Char) (w : World)
    (file_name : List Char) (line : Nat) (format : List Char) (argp : List Arg) :
    nna_vlog_level (Stream.other k) = none
    ∧ (0 < (vsnprintf lib BUFFER_SIZE format argp).1
          ∧ (vsnprintf lib BUFFER_SIZE format argp).1 < 4096 →
        nna_vlog lib true uninit w (Stream.other k) file_name line format argp
          = w ++ [(Stream.other k,
                    wireLine (cstr file_name) (decimal (toInt32 (line % 2 ^ 32)))
                      (cstr uninit) (cstr (vsnprintf lib BUFFER_SIZE format argp).2))]) := by
  refine ⟨by simp [nna_vlog_level], ?_⟩
  intro hr
  rw [nna_vlog_emits lib uninit w (Stream.other k) file_name line format argp hr.1 hr.2]
  simp [nna_vlog_level]

/-- Instance of C8 at a third stream, the unassigned label reading junk. -/
theorem C8_unrecognised_stream_witness :
    (0 < (vsnprintf sampleLib BUFFER_SIZE "value=%d".toList [Arg.int 7]).1
        ∧ (vsnprintf sampleLib BUFFER_SIZE "value=%d".toList [Arg.int 7]).1 < 4096)
    ∧ nna_vlog sampleLib true "junk".toList [] (Stream.other 3) "main.c".toList 42
          "value=%d".toList [Arg.int 7]
        = [] ++ [(Stream.other 3,
                  wireLine (cstr "main.c".toList) (decimal (toInt32 (42 % 2 ^ 32)))
                    (cstr "junk".toList)
                    (cstr (vsnprintf sampleLib BUFFER_SIZE "value=%d".toList [Arg.int 7]).2))]
    ∧ nna_vlog sampleLib true "junk".toList [] (Stream.other 3) "main.c".toList 42
          "value=%d".toList [Arg.int 7]
        = [(Stream.other 3, "[main.c:42] [junk] value=7\n".toList)] :=
  ⟨by decide,
   (C8_unrecognised_stream sampleLib 3 "junk".toList [] "main.c".toList 42
      "value=%d".toList [Arg.int 7]).2 (by decide),
   by decide⟩

/-- C9: `nna_log` and `nna_vlog` write only to the stream they are given: for
every input and every other stream, the content of that stream after the call is
its content before the call, whether the line is emitted or dropped. -/
theorem C9_other_streams_unchanged (lib : Library) (d : Bool) (uninit : List Char)
    (w : World) (stream : Stream) (file_name : List Char) (line : Nat)
    (format : List Char) (args : List Arg) (t : Stream) (ht : t ≠ stream) :
    content (nna_vlog lib d uninit w stream file_name line format args) t = content w t
    ∧ content (nna_log lib d uninit w stream file_name line format args) t
        = content w t := by
  have hv : content (nna_vlog lib d uninit w stream file_name line format args) t
      = content w t := by
    by_cases hr : 0 < (vsnprintf lib BUFFER_SIZE format args).1
        ∧ (vsnprintf lib BUFFER_SIZE format args).1 < 4096
    · cases d
      · simp [nna_vlog]
      · rw [nna_vlog_emits lib uninit w stream file_name line format args hr.1 hr.2]
        exact content_append_other w stream t _ ht
    · rw [nna_vlog_drops lib d uninit w stream file_name line format args hr]
  exact ⟨hv, by rw [nna_log_eq_nna_vlog]; exact hv⟩

/-- Instance of C9: logging to the error stream leaves the output stream as it was. -/
theorem C9_other_streams_unchanged_witness :
    Stream.stdout ≠ Stream.stderr
    ∧ content (nna_vlog sampleLib true [] [(Stream.stdout, "earlier".toList)] Stream.stderr
          "main.c".toList 42 "value=%d".toList [Arg.int 7]) Stream.stdout
        = content [(Stream.stdout, "earlier".toList)] Stream.stdout
    ∧ content (nna_log sampleLib true [] [(Stream.stdout, "earlier".toList)] Stream.stderr
          "main.c".toList 42 "value=%d".toList [Arg.int 7]) Stream.stdout
        = content [(Stream.stdout, "earlier".toList)] Stream.stdout :=
  ⟨by decide,
   C9_other_streams_unchanged sampleLib true [] [(Stream.stdout, "earlier".toList)]
     Stream.stderr "main.c".toList 42 "value=%d".toList [Arg.int 7] Stream.stdout
     (by decide)⟩

/-- C10: the line is an unsigned 32-bit value rendered by a signed decimal
conversion: in every emitted line (switch on, result code r with 0 < r < 4096)
the line field is the decimal numeral of the line when the line is at most
2^31 - 1, and a minus sign followed by the decimal numeral of 2^32 - line, that
is the numeral of line - 2^32, when the line is between 2^31 and 2^32 - 1. -/
theorem C10_line_field_signed (lib : Library) (uninit : List Char) (w : World)
    (stream : Stream) (file_name : List Char) (line : Nat) (format : List Char)
    (argp : List Arg)
    (h0 : 0 < (vsnprintf lib BUFFER_SIZE format argp).1)
    (h1 : (vsnprintf lib BUFFER_SIZE format argp).1 < 4096)
    (hline : line < 2 ^ 32) :
    nna_vlog lib true uninit w stream file_name line format argp
      = w ++ [(stream,
                wireLine (cstr file_name)
                  (if line < 2 ^ 31 then Nat.toDigits 10 line
                   else '-' :: Nat.toDigits 10 (2 ^ 32 - line))
                  (cstr ((nna_vlog_level stream).getD uninit))
                  (cstr (vsnprintf lib BUFFER_SIZE format argp).2))] := by
  rw [nna_vlog_emits lib uninit w stream file_name line format argp h0 h1]
  by_cases hs : line < 2 ^ 31
  · rw [toInt32_small line hs, decimal_ofNat, if_pos hs]
  · rw [toInt32_large line (by omega) hline, decimal_wrapped line hline, if_neg hs]

/-- Instance of C10 at line 4294967295, whose field reads -1. -/
theorem C10_line_field_signed_witness :
    0 < (vsnprintf sampleLib BUFFER_SIZE "x".toList []).1
    ∧ (vsnprintf sampleLib BUFFER_SIZE "x".toList []).1 < 4096
    ∧ 4294967295 < 2 ^ 32
    ∧ nna_vlog sampleLib true [] [] Stream.stderr "main.c".toList 4294967295 "x".toList []
      = [] ++ [(Stream.stderr,
                wireLine (cstr "main.c".toList)
                  (if 4294967295 < 2 ^ 31 then Nat.toDigits 10 4294967295
                   else '-' :: Nat.toDigits 10 (2 ^ 32 - 4294967295))
                  (cstr ((nna_vlog_level Stream.stderr).getD []))
                  (cstr (vsnprintf sampleLib BUFFER_SIZE "x".toList []).2))]
    ∧ nna_vlog sampleLib true [] [] Stream.stderr "main.c".toList 4294967295 "x".toList []
      = [(Stream.stderr, "[main.c:-1] [ERROR] x\n".toList)] :=
  ⟨by decide, by decide, by decide,
   C10_line_field_signed sampleLib [] [] Stream.stderr "main.c".toList 4294967295
     "x".toList [] (by decide) (by decide) (by decide),
   by decide⟩

end NnaUtil
